import Mathlib

/-!
Verification of the PlayStation 2 SIF command/RPC transport.

Shallow embedding of `src/drivers/ps2/sif.c` (with constants from
`src/arch/mips/include/asm/mach-ps2/sif.h`): the command-packet header,
the per-namespace command handler tables, outbound SIF1 writes with their
busy-wait, inbound SIF0 dispatch, the RPC bind/call layer, and the
boot/init sequence with its cleanup ledger.

Machine integers are modelled as `Nat` with explicit `% 2^w` where the C
code can overflow or truncate; fallible functions return `Except KErr _`;
the hardware DMA channel's busy bit is modelled as a poll sequence
`Nat → Bool` (the value observed by each successive poll of the CHCR
busy bit).
-/

/-- Kernel error numbers used by the SIF driver (negated errno values in C). -/
inductive KErr where
  | einval   -- -EINVAL
  | ebusy    -- -EBUSY
  | enomem   -- -ENOMEM
  | enxio    -- -ENXIO
  | eio      -- -EIO
  | etimedout -- -ETIMEDOUT (never produced by sif.c; present to state claims)
  deriving DecidableEq, Repr

/-! ## Constants from `asm/mach-ps2/sif.h` and `sif.c` -/

def SIF_CMD_ID_SYS : Nat := 0x80000000

def SIF_CMD_CHANGE_SADDR : Nat := SIF_CMD_ID_SYS ||| 0x00
def SIF_CMD_WRITE_SREG : Nat := SIF_CMD_ID_SYS ||| 0x01
def SIF_CMD_INIT_CMD : Nat := SIF_CMD_ID_SYS ||| 0x02
def SIF_CMD_RESET_CMD : Nat := SIF_CMD_ID_SYS ||| 0x03
def SIF_CMD_RPC_END : Nat := SIF_CMD_ID_SYS ||| 0x08
def SIF_CMD_RPC_BIND : Nat := SIF_CMD_ID_SYS ||| 0x09
def SIF_CMD_RPC_CALL : Nat := SIF_CMD_ID_SYS ||| 0x0a
def SIF_CMD_IRQ_RELAY : Nat := SIF_CMD_ID_SYS ||| 0x20

def SIF_CMD_PACKET_MAX : Nat := 112
def SIF_CMD_PACKET_DATA_MAX : Nat := 96

/-- `PAGE_SIZE` on this platform; `SIF0_BUFFER_SIZE`/`SIF1_BUFFER_SIZE`. -/
def PAGE_SIZE : Nat := 4096
def SIF0_BUFFER_SIZE : Nat := PAGE_SIZE
def SIF1_BUFFER_SIZE : Nat := PAGE_SIZE

/-- Modelled from the spec: `struct iop_dma_tag` comes from the excluded DMA
channel driver header (`asm/mach-ps2/dmac.h`, not under `src/`); the spec's
wire format works in 16-byte units and `sif.c` requires the total DMA size
`sizeof(iop_dma_tag) + aligned_size` to be 16-byte aligned, so the tag is
one 16-byte unit. -/
def IOP_DMA_TAG_SIZE : Nat := 16

/-- `sizeof(struct sif_cmd_header)` = 16 (checked by `BUILD_BUG_ON` in `sif_init`). -/
def SIF_CMD_HEADER_SIZE : Nat := 16

/-! ## Command packet header (`struct sif_cmd_header`) -/

/-- 16-byte SIF command header. Bit-field widths of the C struct:
`packet_size : 8`, `data_size : 24`, and three full `u32` words. The
invariants `packet_size < 2^8` etc. are maintained by construction sites
(`mkSifCmdHeader`) taking values mod the field width, exactly as the C
bit-field assignment truncates. -/
structure SifCmdHeader where
  packet_size : Nat
  data_size : Nat
  data_addr : Nat
  cmd : Nat
  opt : Nat
  deriving DecidableEq, Repr

/-- Header construction as in `sif_cmd_opt_copy`: each field is truncated
to its bit-field width on assignment. -/
def mkSifCmdHeader (packet_size data_size data_addr cmd opt : Nat) : SifCmdHeader :=
  { packet_size := packet_size % 2^8
    data_size := data_size % 2^24
    data_addr := data_addr % 2^32
    cmd := cmd % 2^32
    opt := opt % 2^32 }

/-! ## Command handler table (`handler_from_cid`, `sif_request_cmd`,
`cmd_call_handler`)

`struct sif_cmd_handler { sif_cmd_cb cb; void *arg; }`: the callback
pointer is modelled as `Option CB` (`none` = NULL) over an abstract
callback type `CB`, and the opaque `void *arg` as an abstract `A`. -/

def CMD_HANDLER_MAX : Nat := 64

structure SifCmdHandler (CB A : Type) where
  cb : Option CB
  arg : A
  deriving DecidableEq

/-- The two static tables `sys_cmds` and `usr_cmds` of `handler_from_cid`.
Each is modelled as a total map from the table index; only indices
`< CMD_HANDLER_MAX` are reachable. -/
structure CmdTables (CB A : Type) where
  sys_cmds : Nat → SifCmdHandler CB A
  usr_cmds : Nat → SifCmdHandler CB A

/-- Fresh tables: every entry has a NULL callback (static zero-initialised
arrays in C). -/
def CmdTables.empty (CB : Type) (A : Type) (a0 : A) : CmdTables CB A :=
  { sys_cmds := fun _ => ⟨none, a0⟩, usr_cmds := fun _ => ⟨none, a0⟩ }

/-- `handler_from_cid`: index `id = cmd_id & ~SIF_CMD_ID_SYS`; table selected
by `cmd_id & SIF_CMD_ID_SYS`; NULL (`none`) if `id ≥ CMD_HANDLER_MAX`. -/
def handler_from_cid (t : CmdTables CB A) (cmd_id : Nat) : Option (SifCmdHandler CB A) :=
  let id := cmd_id &&& 0x7fffffff
  if id < CMD_HANDLER_MAX then
    some (if cmd_id &&& SIF_CMD_ID_SYS ≠ 0 then t.sys_cmds id else t.usr_cmds id)
  else
    none

/-- `sif_request_cmd`: returns `-EINVAL` when `handler_from_cid` gives NULL,
otherwise stores `cb` and `arg` in the entry (overwriting it) and returns 0.
Result is the error status together with the updated tables. -/
def sif_request_cmd (t : CmdTables CB A) (cmd_id : Nat) (cb : Option CB) (arg : A) :
    Except KErr Unit × CmdTables CB A :=
  match handler_from_cid t cmd_id with
  | none => (.error .einval, t)
  | some _ =>
    let id := cmd_id &&& 0x7fffffff
    if cmd_id &&& SIF_CMD_ID_SYS ≠ 0 then
      (.ok (), { t with sys_cmds := fun j => if j = id then ⟨cb, arg⟩ else t.sys_cmds j })
    else
      (.ok (), { t with usr_cmds := fun j => if j = id then ⟨cb, arg⟩ else t.usr_cmds j })

/-- `cmd_call_handler`: look up the header's `cmd`; if the entry is missing
or its callback is NULL, the packet is ignored (logged once) and no handler
runs; otherwise the stored callback is invoked with the stored `arg`.
The result records which callback was invoked and with which argument
(`none` = dropped, no handler invoked). -/
def cmd_call_handler (t : CmdTables CB A) (header : SifCmdHeader) : Option (CB × A) :=
  match handler_from_cid t header.cmd with
  | none => none
  | some handler =>
    match handler.cb with
    | none => none
    | some cb => some (cb, handler.arg)

/-- An inbound SIF0 packet as it sits in `sif0_buffer` when the receive
interrupt fires: the 16-byte header followed by the payload bytes
(`payload = &header[1]`). -/
structure InPacket where
  header : SifCmdHeader
  payload : List Nat
  deriving DecidableEq, Repr

/-- `sif0_dma_handler`, packet-processing part (the `sif0_busy()` early
return handles a spurious interrupt with no completed packet and is outside
this model, which starts from a received packet). Returns which handler
invocation happened (as in `cmd_call_handler`) and whether the inbound DMA
channel was re-armed (`sif0_reset_dma`). -/
def sif0_dma_handler (t : CmdTables CB A) (p : InPacket) : Option (CB × A) × Bool :=
  if p.header.packet_size < SIF_CMD_HEADER_SIZE ∨ p.header.packet_size > SIF_CMD_PACKET_MAX then
    (none, true)  -- invalid command header size: goto err; sif0_reset_dma()
  else
    (cmd_call_handler t p.header, true)  -- then sif0_reset_dma()

/-! ## Outbound SIF1 writes (`sif1_ready`, `sif1_write_ert_int_0`)

The SIF1 DMA channel's busy bit is modelled as the sequence of values
`polls : Nat → Bool` observed by successive reads of `DMAC_SIF1_CHCR`'s
busy bit inside `sif1_busy()`. -/

/-- The countdown loop of `sif1_ready`:
`while (sif1_busy() && countout > 0) { udelay(100); countout--; }`.
Returns the final value of `countout`. `i` is the index of the next poll. -/
def sif1_wait (polls : Nat → Bool) (i : Nat) : Nat → Nat
  | 0 => 0
  | countout + 1 => if polls i then sif1_wait polls (i + 1) countout else countout + 1

/-- `sif1_ready`: poll the busy bit with a countout of 50000 (one `udelay(100)`
per iteration, about 5 s total); returns `countout > 0`. -/
def sif1_ready (polls : Nat → Bool) : Bool :=
  sif1_wait polls 0 50000 > 0

/-- One outbound SIF1 DMA transfer as programmed by `sif1_write_ert_int_0`
into `DMAC_SIF1_MADR/QWC/CHCR`: the IOP DMA tag's `ert`/`int_0` flags and
destination address, the optional 16-byte command header and the source
bytes copied into `sif1_buffer` behind the tag. -/
structure Sif1Transfer where
  ert : Bool
  int_0 : Bool
  dst : Nat
  header : Option SifCmdHeader
  src : List Nat
  deriving DecidableEq, Repr

/-- `ALIGN(x, 16)`. -/
def align16 (x : Nat) : Nat := (x + 15) / 16 * 16

/-- `sif1_write_ert_int_0`: builds the IOP DMA tag, copies tag + optional
header + source bytes into `sif1_buffer` and starts the SIF1 DMA.
Returns `ok none` when there is nothing to send (`aligned_size == 0`),
`ok (some transfer)` when a DMA was started, `-EINVAL` when the DMA buffer
is too small, `-EBUSY` when the channel stayed busy through the bounded
wait. -/
def sif1_write_ert_int_0 (polls : Nat → Bool) (header : Option SifCmdHeader)
    (ert int_0 : Bool) (dst : Nat) (src : List Nat) :
    Except KErr (Option Sif1Transfer) :=
  let header_size := if header.isSome then SIF_CMD_HEADER_SIZE else 0
  let aligned_size := align16 (header_size + src.length)
  let dma_nbytes := IOP_DMA_TAG_SIZE + aligned_size
  if aligned_size = 0 then .ok none
  else if dma_nbytes > SIF1_BUFFER_SIZE then .error .einval
  else if ¬ sif1_ready polls then .error .ebusy
  else .ok (some ⟨ert, int_0, dst, header, src⟩)

/-- `sif1_write`: headerless/bulk variant, no end-of-transfer interrupt
(`ert = false`, `int_0 = false`). -/
def sif1_write (polls : Nat → Bool) (header : Option SifCmdHeader)
    (dst : Nat) (src : List Nat) : Except KErr (Option Sif1Transfer) :=
  sif1_write_ert_int_0 polls header false false dst src

/-- `sif1_write_irq`: header-carrying variant with interrupt-on-completion
(`ert = true`, `int_0 = true`). -/
def sif1_write_irq (polls : Nat → Bool) (header : Option SifCmdHeader)
    (dst : Nat) (src : List Nat) : Except KErr (Option Sif1Transfer) :=
  sif1_write_ert_int_0 polls header true true dst src

/-! ## Sending commands (`sif_cmd_opt_copy` and wrappers)

Each send makes up to two `sif1_ready` waits, so each gets its own poll
sequence (`polls1` for the bulk write, `polls2` for the header write).
`iop_buffer` is the global destination address read from `SIF_SUBADDR`.
Results carry the list of DMA transfers actually started, in order. -/

def sif_cmd_opt_copy (polls1 polls2 : Nat → Bool) (iop_buffer : Nat)
    (cmd_id opt : Nat) (pkt : List Nat) (dst : Nat) (src : List Nat) :
    Except KErr Unit × List Sif1Transfer :=
  let header := mkSifCmdHeader (SIF_CMD_HEADER_SIZE + pkt.length) src.length dst cmd_id opt
  if pkt.length > SIF_CMD_PACKET_DATA_MAX then (.error .einval, [])
  else
    match sif1_write polls1 none dst src with
    | .error e => (.error e, [])
    | .ok t1 =>
      match sif1_write_irq polls2 (some header) iop_buffer pkt with
      | .error e => (.error e, t1.toList)
      | .ok t2 => (.ok (), t1.toList ++ t2.toList)

def sif_cmd_copy (polls1 polls2 : Nat → Bool) (iop_buffer : Nat)
    (cmd_id : Nat) (pkt : List Nat) (dst : Nat) (src : List Nat) :
    Except KErr Unit × List Sif1Transfer :=
  sif_cmd_opt_copy polls1 polls2 iop_buffer cmd_id 0 pkt dst src

def sif_cmd_opt (polls1 polls2 : Nat → Bool) (iop_buffer : Nat)
    (cmd_id opt : Nat) (pkt : List Nat) :
    Except KErr Unit × List Sif1Transfer :=
  sif_cmd_opt_copy polls1 polls2 iop_buffer cmd_id opt pkt 0 []

def sif_cmd (polls1 polls2 : Nat → Bool) (iop_buffer : Nat)
    (cmd_id : Nat) (pkt : List Nat) :
    Except KErr Unit × List Sif1Transfer :=
  sif_cmd_copy polls1 polls2 iop_buffer cmd_id pkt 0 []

/-! ## Byte-level helpers for packet contents -/

/-- Little-endian 32-bit serialisation of a word into four bytes. -/
def u32le (n : Nat) : List Nat :=
  [n % 256, n / 2^8 % 256, n / 2^16 % 256, n / 2^24 % 256]

/-- Read a little-endian 32-bit word at byte offset `off` of a payload
(out-of-range bytes read as the zero-filled remainder of the DMA buffer). -/
def read_u32le (l : List Nat) (off : Nat) : Nat :=
  l.getD off 0 % 256 + (l.getD (off + 1) 0 % 256) * 2^8 +
    (l.getD (off + 2) 0 % 256) * 2^16 + (l.getD (off + 3) 0 % 256) * 2^24

/-! ## RPC layer (`struct sif_rpc_client`, `cmd_rpc_end`, `sif_rpc_bind`,
`sif_rpc_dma`)

The satellite (IOP) is outside the program: each blocking wait on
`client->done` is resolved by a parameter describing the `rpc-end` packet
the satellite eventually sends. -/

/-- `struct sif_rpc_client` (the `completion done` is modelled as the flag
`done`). -/
structure SifRpcClient where
  server : Nat
  server_buffer : Nat
  client_size_max : Nat
  done : Bool
  deriving DecidableEq, Repr

/-- `cmd_rpc_end` as it acts on the client named by the packet: switch on
the packet's `client_id`; `SIF_CMD_RPC_CALL` leaves the client fields
alone, `SIF_CMD_RPC_BIND` copies the packet's `server` and `server_buffer`
into the client; any other `client_id` hits `BUG()` (`none`). On the
non-BUG paths `complete_all(&client->done)` sets `done`. -/
def cmd_rpc_end_client (client : SifRpcClient) (client_id server server_buffer : Nat) :
    Option SifRpcClient :=
  if client_id = SIF_CMD_RPC_CALL then
    some { client with done := true }
  else if client_id = SIF_CMD_RPC_BIND then
    some { client with server := server, server_buffer := server_buffer, done := true }
  else
    none  -- default: BUG()

/-- The `struct sif_rpc_bind_packet` bytes sent by `sif_rpc_bind`
(header `{rec_id, pkt_addr, rpc_id}` zero-initialised, then the client
pointer and `server_id`); 20 bytes, as checked by `BUILD_BUG_ON`. -/
def sif_rpc_bind_packet (client_ptr server_id : Nat) : List Nat :=
  u32le 0 ++ u32le 0 ++ u32le 0 ++ u32le client_ptr ++ u32le server_id

/-- `sif_rpc_bind`: zero the client, set `client_size_max` to the allocated
page, allocate the client buffer (`alloc_ok = false` models
`__get_free_page` failing), send `SIF_CMD_RPC_BIND`, then block on the
completion until the satellite's `rpc-end` reply — described by
`(resp_server, resp_server_buffer)`, carried in a packet with
`client_id = SIF_CMD_RPC_BIND` as built by the bind responder (compare
`cmd_rpc_bind`) — is dispatched through `cmd_rpc_end`. Returns 0 exactly
when the recorded `client->server` is nonzero, else `-ENXIO`. -/
def sif_rpc_bind (alloc_ok : Bool) (polls1 polls2 : Nat → Bool) (iop_buffer : Nat)
    (client_ptr server_id : Nat) (resp_server resp_server_buffer : Nat) :
    Except KErr SifRpcClient :=
  let client : SifRpcClient :=
    { server := 0, server_buffer := 0, client_size_max := SIF0_BUFFER_SIZE, done := false }
  if ¬ alloc_ok then .error .enomem
  else
    match (sif_cmd polls1 polls2 iop_buffer SIF_CMD_RPC_BIND
            (sif_rpc_bind_packet client_ptr server_id)).1 with
    | .error e => .error e
    | .ok _ =>
      -- wait_for_completion(&client->done): the satellite's rpc-end reply
      -- for a bind arrives and is dispatched by cmd_rpc_end.
      match cmd_rpc_end_client client SIF_CMD_RPC_BIND resp_server resp_server_buffer with
      | none => .error .eio  -- unreachable: client_id is SIF_CMD_RPC_BIND
      | some c => if c.server ≠ 0 then .ok c else .error .enxio

/-- The `struct sif_rpc_call_packet` bytes sent by `sif_rpc_dma` (40 bytes,
as checked by `BUILD_BUG_ON`): zero header, client pointer, `rpc_id`,
`send_size`, `recv_addr`, `recv_size`, `recv_mode = 1`, `server`. -/
def sif_rpc_call_packet (client_ptr rpc_id send_size recv_addr recv_size server : Nat) :
    List Nat :=
  u32le 0 ++ u32le 0 ++ u32le 0 ++ u32le client_ptr ++ u32le rpc_id ++
    u32le send_size ++ u32le recv_addr ++ u32le recv_size ++ u32le 1 ++ u32le server

/-- `sif_rpc_dma`: validate that `send_size` survives the `u32` bit-field
truncation and that `recv_size` fits the client buffer (`-EINVAL` before
any transfer otherwise), reset the completion, send `SIF_CMD_RPC_CALL`
with the send buffer as bulk payload to `client->server_buffer`, then
block until the satellite's `rpc-end` (with `client_id = SIF_CMD_RPC_CALL`)
completes the client. Result: status, the client state afterwards, and the
DMA transfers issued. -/
def sif_rpc_dma (polls1 polls2 : Nat → Bool) (iop_buffer : Nat)
    (client : SifRpcClient) (client_ptr recv_addr rpc_id : Nat)
    (send : List Nat) (recv_size : Nat) :
    Except KErr Unit × SifRpcClient × List Sif1Transfer :=
  if send.length % 2^32 ≠ send.length then (.error .einval, client, [])
  else if recv_size > client.client_size_max then (.error .einval, client, [])
  else
    let c1 := { client with done := false }  -- reinit_completion
    let call := sif_rpc_call_packet client_ptr rpc_id (send.length % 2^32)
                  recv_addr recv_size client.server
    match sif_cmd_copy polls1 polls2 iop_buffer SIF_CMD_RPC_CALL call
            client.server_buffer send with
    | (.error e, log) => (.error e, c1, log)
    | (.ok _, log) =>
      -- wait_for_completion: satellite replies rpc-end with
      -- client_id = SIF_CMD_RPC_CALL.
      match cmd_rpc_end_client c1 SIF_CMD_RPC_CALL 0 0 with
      | none => (.error .eio, c1, log)  -- unreachable
      | some c2 => (.ok (), c2, log)

/-! ## The concrete system handlers registered at boot
(`sif_request_cmds`, `cmd_write_sreg`, `cmd_irq_relay`, `cmd_rpc_end`,
`cmd_rpc_bind`)

For inbound-path safety we instantiate the abstract callback type with the
four callbacks `sif_request_cmds` registers and give each its source
semantics, including the `BUG_ON`/`BUG()` assertions they contain. -/

inductive ConcreteCb where
  | writeSreg  -- cmd_write_sreg
  | irqRelay   -- cmd_irq_relay
  | rpcEnd     -- cmd_rpc_end
  | rpcBind    -- cmd_rpc_bind
  deriving DecidableEq, Repr

/-- The state the registered handlers update on the main processor: the
32-entry `sregs` array (signed 32-bit values). -/
structure SifState where
  sregs : Nat → Int

/-- Outcome of running the inbound path on a packet: dropped without any
handler invocation, handled (with the successor state), or a fatal
kernel assertion (`BUG_ON`/`BUG`) reached inside the handler. -/
inductive SysDispatch where
  | dropped
  | handled (s : SifState)
  | fatal

/-- The registration loop of `sif_request_cmds`: register in order,
stopping at the first error. -/
def register_cmds (t : CmdTables ConcreteCb Unit) :
    List (Nat × ConcreteCb) → Except KErr Unit × CmdTables ConcreteCb Unit
  | [] => (.ok (), t)
  | (cmd_id, cb) :: rest =>
    match sif_request_cmd t cmd_id (some cb) () with
    | (.ok _, t') => register_cmds t' rest
    | (.error e, t') => (.error e, t')

/-- `sif_request_cmds`: the fixed registrations done by `sif_init`. -/
def sif_request_cmds : Except KErr Unit × CmdTables ConcreteCb Unit :=
  register_cmds (CmdTables.empty ConcreteCb Unit ())
    [(SIF_CMD_WRITE_SREG, .writeSreg), (SIF_CMD_IRQ_RELAY, .irqRelay),
     (SIF_CMD_RPC_END, .rpcEnd), (SIF_CMD_RPC_BIND, .rpcBind)]

/-- The handler tables in effect after `sif_request_cmds`. -/
def boot_tables : CmdTables ConcreteCb Unit := sif_request_cmds.2

/-- Semantics of each registered callback on an inbound packet.

* `cmd_write_sreg`: reads `{ u32 reg; s32 val; }` from the payload;
  `BUG_ON(packet->reg >= ARRAY_SIZE(sregs))` with `ARRAY_SIZE(sregs) = 32`
  is a fatal assertion; otherwise stores `val` into `sregs[reg]`.
* `cmd_irq_relay`: reads `{ u32 irq; }` and forwards it to `intc_sif_irq`
  (the excluded interrupt-controller driver); no assertion, state unchanged.
* `cmd_rpc_end`: reads the `sif_rpc_request_end_packet`'s `client_id`
  (byte offset 16); any value other than `SIF_CMD_RPC_CALL` or
  `SIF_CMD_RPC_BIND` hits `BUG()`. Its updates to the client named by the
  packet are modelled by `cmd_rpc_end_client`; here only the control flow
  on this state matters.
* `cmd_rpc_bind`: builds an `rpc-end` reply and sends it with `sif_cmd`
  (a failure is only logged); no assertion, state unchanged. -/
def run_sys_handler (cb : ConcreteCb) (s : SifState)
    (_header : SifCmdHeader) (data : List Nat) : SysDispatch :=
  match cb with
  | .writeSreg =>
    let reg := read_u32le data 0
    let valu := read_u32le data 4
    if reg ≥ 32 then .fatal  -- BUG_ON(packet->reg >= ARRAY_SIZE(sregs))
    else .handled { sregs := fun j => if j = reg then
                      (if valu < 2^31 then (valu : Int) else (valu : Int) - 2^32)
                    else s.sregs j }
  | .irqRelay => .handled s
  | .rpcEnd =>
    let client_id := read_u32le data 16
    if client_id = SIF_CMD_RPC_CALL ∨ client_id = SIF_CMD_RPC_BIND then .handled s
    else .fatal  -- default: BUG()
  | .rpcBind => .handled s

/-- `sif0_dma_handler` with the boot-time handler table and the concrete
handler semantics: the full inbound path from a received packet. -/
def sif0_dispatch_sys (s : SifState) (p : InPacket) : SysDispatch × Bool :=
  match sif0_dma_handler boot_tables p with
  | (none, rearm) => (.dropped, rearm)
  | (some (cb, _), rearm) => (run_sys_handler cb s p.header p.payload, rearm)

/-! ## Bounded polling (`completed`) and boot/init (`sif_init`) -/

/-- The polling loop of `completed` restricted to a budget of `n` condition
checks: `do { if (condition()) return true; msleep(1); } while (time left)`.
`cond i` is the condition's value at the `i`-th check. -/
def completed_within (cond : Nat → Bool) : Nat → Bool
  | 0 => false
  | n + 1 => if cond 0 then true else completed_within (fun i => cond (i + 1)) n

/-- Poll budget of `completed`: the deadline is `jiffies + 5*HZ` (≈5 s) with
`msleep(1)` between checks, so at most about 5000 checks happen. -/
def COMPLETED_POLL_BUDGET : Nat := 5000

/-- `completed(condition)`: bounded 5 s poll. -/
def completed (cond : Nat → Bool) : Bool :=
  completed_within cond COMPLETED_POLL_BUDGET

/-- `IOP_RESET_ARGS` = `"rom0:UDNL rom0:OSDCNF"` (bytes, without the NUL). -/
def IOP_RESET_ARGS : List Nat :=
  "rom0:UDNL rom0:OSDCNF".toList.map Char.toNat

/-- The `reset_pkt` of `iop_reset_arg`: `{ u32 arglen; u32 mode; char arg[80]; }`
with the argument string (incl. NUL) copied in and the rest of the field
zero-initialised; 88 bytes. -/
def iop_reset_packet (arg : List Nat) : List Nat :=
  u32le (arg.length + 1) ++ u32le 0 ++ (arg ++ [0] ++ List.replicate (80 - (arg.length + 1)) 0)

/-- `iop_reset_arg`: reject argument strings longer than the 80-byte field
(`arglen = strlen(arg) + 1`), clear the BOOTEND flag, send
`SIF_CMD_RESET_CMD`, set the SIFINIT/CMDINIT flags, then wait (bounded) for
the IOP to raise BOOTEND; `-EIO` on timeout. `bootend` is the polled value
of `sif_smflag_bootend`. -/
def iop_reset_arg (polls1 polls2 : Nat → Bool) (iop_buffer : Nat)
    (bootend : Nat → Bool) (arg : List Nat) : Except KErr Unit :=
  if arg.length + 1 > 80 then .error .einval
  else
    -- sif_write_smflag(SIF_STATUS_BOOTEND)
    match (sif_cmd polls1 polls2 iop_buffer SIF_CMD_RESET_CMD (iop_reset_packet arg)).1 with
    | .error e => .error e
    | .ok _ =>
      -- sif_write_smflag(SIF_STATUS_SIFINIT | SIF_STATUS_CMDINIT)
      if completed bootend then .ok () else .error .eio

/-- Which of the resources acquired by `sif_init` are still held when it
returns: the two DMA buffer pages and the SIF0 interrupt line. -/
structure Resources where
  sif0_held : Bool
  sif1_held : Bool
  irq_held : Bool
  deriving DecidableEq, Repr

def Resources.none : Resources := ⟨false, false, false⟩

/-- The environment `sif_init` runs against: allocation outcomes, the
mailbox flag values observed by each bounded wait, the `SIF_SUBADDR`
register values, the interrupt-registration outcome, and the SIF1 busy
polls for each send. Fields appear in the order the steps consume them. -/
structure BootEnv where
  alloc_sif0 : Bool                    -- __get_free_page for sif0_buffer
  alloc_sif1 : Bool                    -- __get_free_page for sif1_buffer
  cmdinit1 : Nat → Bool                -- sif_smflag_cmdinit polls, 1st sif_read_subaddr
  subaddr1 : Nat                       -- provisional SIF_SUBADDR value
  mainaddr : Nat                       -- virt_to_phys(sif0_buffer)
  reset_polls1 : Nat → Bool            -- SIF1 busy polls, RESET_CMD bulk write
  reset_polls2 : Nat → Bool            -- SIF1 busy polls, RESET_CMD header write
  bootend : Nat → Bool                 -- sif_smflag_bootend polls, iop_reset wait
  cmdinit2 : Nat → Bool                -- sif_smflag_cmdinit polls, 2nd sif_read_subaddr
  subaddr2 : Nat                       -- final SIF_SUBADDR value
  request_irq_result : Except KErr Unit -- request_irq(IRQ_DMAC_SIF0, ...)
  initcmd_polls1 : Nat → Bool          -- SIF1 busy polls, INIT_CMD(0) bulk write
  initcmd_polls2 : Nat → Bool          -- SIF1 busy polls, INIT_CMD(0) header write
  rpc_polls1 : Nat → Bool              -- SIF1 busy polls, INIT_CMD(1) bulk write
  rpc_polls2 : Nat → Bool              -- SIF1 busy polls, INIT_CMD(1) header write
  rpcinit : Nat → Bool                 -- sif_sreg_rpcinit polls, sif_rpc_init wait

/-- `sif_init`: the boot sequence of the SIF module, with the cleanup
ledger. Each failing step unwinds through the `goto` chain: every error
path after buffer allocation ends in `put_dma_buffers()`, and errors after
`request_irq` also run `free_irq` and `sif_disable_dma`, so every error
return holds no resources. -/
def sif_init (env : BootEnv) : Except KErr Unit × Resources :=
  -- sif_disable_dma()
  if ¬ (env.alloc_sif0 ∧ env.alloc_sif1) then
    (.error .enomem, Resources.none)  -- get_dma_buffers → put_dma_buffers
  else if ¬ completed env.cmdinit1 then
    (.error .eio, Resources.none)  -- sif_read_subaddr fails; put_dma_buffers
  else
    -- iop_buffer := provisional SUBADDR; write provisional MAINADDR+BOOTEND
    match iop_reset_arg env.reset_polls1 env.reset_polls2 env.subaddr1
            env.bootend IOP_RESET_ARGS with
    | .error e => (.error e, Resources.none)  -- err_iop_reset: put_dma_buffers
    | .ok _ =>
      -- write final MAINADDR and end of boot
      if ¬ completed env.cmdinit2 then
        (.error .eio, Resources.none)  -- err_final_subaddr: put_dma_buffers
      else
        match sif_request_cmds.1 with
        | .error e => (.error e, Resources.none)  -- err_request_commands
        | .ok _ =>
          -- sif0_reset_dma()
          match env.request_irq_result with
          | .error e => (.error e, Resources.none)  -- err_irq_sif0
          | .ok _ =>
            -- sif_cmd_init(virt_to_phys(sif0_buffer))
            match (sif_cmd_opt env.initcmd_polls1 env.initcmd_polls2 env.subaddr2
                    SIF_CMD_INIT_CMD 0 (u32le env.mainaddr)).1 with
            | .error e => (.error e, Resources.none)  -- err_cmd_init: free_irq, disable, free
            | .ok _ =>
              -- sif_rpc_init(): send INIT_CMD with opt = 1, then wait RPCINIT
              match (sif_cmd_opt env.rpc_polls1 env.rpc_polls2 env.subaddr2
                      SIF_CMD_INIT_CMD 1 []).1 with
              | .error e => (.error e, Resources.none)  -- err_rpc_init
              | .ok _ =>
                if completed env.rpcinit then (.ok (), ⟨true, true, true⟩)
                else (.error .eio, Resources.none)  -- err_rpc_init

/-- A command id has a registered handler when its table entry exists and
holds a non-NULL callback (the condition `handler && handler->cb` of
`cmd_call_handler`). -/
def cmd_registered (t : CmdTables CB A) (cmd_id : Nat) : Bool :=
  match handler_from_cid t cmd_id with
  | none => false
  | some handler => handler.cb.isSome

/-! ## Helper lemmas -/

lemma align16_ge (x : Nat) : x ≤ align16 x := by
  unfold align16; omega

lemma align16_le_add (x : Nat) : align16 x ≤ x + 15 := by
  unfold align16; omega

lemma cmd_call_handler_none_of_unregistered (t : CmdTables CB A) (header : SifCmdHeader)
    (h : cmd_registered t header.cmd = false) : cmd_call_handler t header = none := by
  unfold cmd_registered at h
  unfold cmd_call_handler
  cases hh : handler_from_cid t header.cmd with
  | none => rfl
  | some handler =>
    rw [hh] at h
    cases hcb : handler.cb with
    | none => simp [hcb]
    | some cb => simp [hcb] at h

lemma sif0_dma_handler_drop (t : CmdTables CB A) (p : InPacket)
    (h : p.header.packet_size < SIF_CMD_HEADER_SIZE ∨ SIF_CMD_PACKET_MAX < p.header.packet_size ∨
      cmd_registered t p.header.cmd = false) :
    sif0_dma_handler t p = (none, true) := by
  unfold sif0_dma_handler
  split_ifs with hs
  · rfl
  · push_neg at hs
    rcases h with h | h | h
    · omega
    · omega
    · rw [cmd_call_handler_none_of_unregistered t p.header h]

lemma sif0_dma_handler_rearm (t : CmdTables CB A) (p : InPacket) :
    (sif0_dma_handler t p).2 = true := by
  unfold sif0_dma_handler
  split_ifs <;> rfl

lemma sif_request_cmd_out_of_range (t : CmdTables CB A) (cmd_id : Nat) (cb : Option CB) (arg : A)
    (h : CMD_HANDLER_MAX ≤ cmd_id &&& 0x7fffffff) :
    sif_request_cmd t cmd_id cb arg = (.error .einval, t) := by
  unfold sif_request_cmd handler_from_cid
  simp only []
  rw [if_neg (by omega)]

lemma sif_request_cmd_in_range (t : CmdTables CB A) (cmd_id : Nat) (cb : Option CB) (arg : A)
    (h : cmd_id &&& 0x7fffffff < CMD_HANDLER_MAX) :
    (sif_request_cmd t cmd_id cb arg).1 = .ok () := by
  unfold sif_request_cmd handler_from_cid
  simp only []
  rw [if_pos h]
  split_ifs <;> rfl

lemma handler_from_cid_after_request (t : CmdTables CB A) (cmd_id : Nat) (cb : Option CB) (arg : A)
    (h : cmd_id &&& 0x7fffffff < CMD_HANDLER_MAX) :
    handler_from_cid (sif_request_cmd t cmd_id cb arg).2 cmd_id = some ⟨cb, arg⟩ := by
  unfold sif_request_cmd handler_from_cid
  simp only []
  rw [if_pos h]
  split_ifs with hsys
  · simp [hsys, if_pos h]
  · simp [hsys, if_pos h]

/-- C3: a packet whose `packet_size` lies outside [16, 112], or whose
command id has no registered handler, is dispatched to no handler; and in
every case the inbound DMA channel is re-armed before the interrupt
handler returns. -/
theorem sif_dispatch_drops_invalid_and_always_rearms
    (t : CmdTables CB A) (p : InPacket) :
    ((p.header.packet_size < SIF_CMD_HEADER_SIZE ∨
        SIF_CMD_PACKET_MAX < p.header.packet_size ∨
        cmd_registered t p.header.cmd = false) →
      (sif0_dma_handler t p).1 = none) ∧
    (sif0_dma_handler t p).2 = true :=
  ⟨fun h => by rw [sif0_dma_handler_drop t p h], sif0_dma_handler_rearm t p⟩

theorem sif_dispatch_drops_invalid_and_always_rearms_witness :
    (sif0_dma_handler (CmdTables.empty Nat Nat 0) ⟨⟨8, 0, 0, 5, 0⟩, []⟩).1 = none ∧
    (sif0_dma_handler (CmdTables.empty Nat Nat 0) ⟨⟨8, 0, 0, 5, 0⟩, []⟩).2 = true :=
  ⟨(sif_dispatch_drops_invalid_and_always_rearms (CmdTables.empty Nat Nat 0)
      ⟨⟨8, 0, 0, 5, 0⟩, []⟩).1 (Or.inl (by decide)),
   (sif_dispatch_drops_invalid_and_always_rearms (CmdTables.empty Nat Nat 0)
      ⟨⟨8, 0, 0, 5, 0⟩, []⟩).2⟩

/-- C5: an RPC call whose `recv_size` exceeds the client buffer capacity
fails with `-EINVAL` before any transfer: no DMA is issued and the client
state is returned unchanged. -/
theorem sif_rpc_call_oversized_recv_no_transfer (polls1 polls2 : Nat → Bool)
    (iop_buffer : Nat) (client : SifRpcClient) (client_ptr recv_addr rpc_id : Nat)
    (send : List Nat) (recv_size : Nat)
    (h : client.client_size_max < recv_size) :
    sif_rpc_dma polls1 polls2 iop_buffer client client_ptr recv_addr rpc_id send recv_size =
      (.error .einval, client, []) := by
  unfold sif_rpc_dma
  split_ifs with h1
  · rfl
  · rfl

theorem sif_rpc_call_oversized_recv_no_transfer_witness :
    sif_rpc_dma (fun _ => false) (fun _ => false) 0 ⟨0x1000, 0x2000, 4096, true⟩ 0 0 7 [1, 2] 5000 =
      (.error .einval, ⟨0x1000, 0x2000, 4096, true⟩, []) :=
  sif_rpc_call_oversized_recv_no_transfer (fun _ => false) (fun _ => false) 0
    ⟨0x1000, 0x2000, 4096, true⟩ 0 0 7 [1, 2] 5000 (by decide)

/-- C8: registering a command id whose in-namespace index is at least the
table capacity (64) fails with `-EINVAL` and leaves the tables untouched;
an in-range id registers successfully, re-registration also succeeds, and
dispatch after both uses the most recently registered callback and
context (last writer wins). -/
theorem sif_request_cmd_capacity_and_overwrite {CB A : Type}
    (t : CmdTables CB A) (cmd_id : Nat) (cb1 cb2 : CB) (a1 a2 : A) :
    (CMD_HANDLER_MAX ≤ cmd_id &&& 0x7fffffff →
      sif_request_cmd t cmd_id (some cb1) a1 = (.error .einval, t)) ∧
    (cmd_id &&& 0x7fffffff < CMD_HANDLER_MAX →
      (sif_request_cmd t cmd_id (some cb1) a1).1 = .ok () ∧
      (sif_request_cmd (sif_request_cmd t cmd_id (some cb1) a1).2 cmd_id (some cb2) a2).1 = .ok () ∧
      ∀ header : SifCmdHeader, header.cmd = cmd_id →
        cmd_call_handler
          (sif_request_cmd (sif_request_cmd t cmd_id (some cb1) a1).2 cmd_id (some cb2) a2).2
          header = some (cb2, a2)) := by
  refine ⟨fun h => sif_request_cmd_out_of_range t cmd_id (some cb1) a1 h,
    fun h => ⟨sif_request_cmd_in_range t cmd_id (some cb1) a1 h,
      sif_request_cmd_in_range _ cmd_id (some cb2) a2 h, ?_⟩⟩
  intro header hc
  unfold cmd_call_handler
  rw [hc, handler_from_cid_after_request _ cmd_id (some cb2) a2 h]

theorem sif_request_cmd_capacity_and_overwrite_witness :
    sif_request_cmd (CmdTables.empty Nat Nat 0) 100 (some 1) 2 =
      (.error .einval, CmdTables.empty Nat Nat 0) ∧
    cmd_call_handler
      (sif_request_cmd (sif_request_cmd (CmdTables.empty Nat Nat 0) 5 (some 7) 8).2
        5 (some 9) 10).2 ⟨16, 0, 0, 5, 0⟩ = some (9, 10) :=
  ⟨(sif_request_cmd_capacity_and_overwrite (CmdTables.empty Nat Nat 0) 100 1 1 2 2).1 (by decide),
   ((sif_request_cmd_capacity_and_overwrite (CmdTables.empty Nat Nat 0) 5 7 9 8 10).2
      (by decide)).2.2 ⟨16, 0, 0, 5, 0⟩ rfl⟩

/-- C10: registering a NULL callback for an in-range command id succeeds,
and afterwards every inbound packet with that command id is dropped by the
dispatch path (the stored callback is checked for NULL before invocation),
so a NULL registration acts as unregistration. -/
theorem sif_request_cmd_null_cb_unregisters {CB A : Type}
    (t : CmdTables CB A) (cmd_id : Nat) (arg : A)
    (h : cmd_id &&& 0x7fffffff < CMD_HANDLER_MAX) :
    (sif_request_cmd t cmd_id (none : Option CB) arg).1 = .ok () ∧
    ∀ p : InPacket, p.header.cmd = cmd_id →
      (sif0_dma_handler (sif_request_cmd t cmd_id (none : Option CB) arg).2 p).1 = none := by
  refine ⟨sif_request_cmd_in_range t cmd_id none arg h, ?_⟩
  intro p hc
  have hreg : cmd_registered (sif_request_cmd t cmd_id (none : Option CB) arg).2 p.header.cmd
      = false := by
    unfold cmd_registered
    rw [hc, handler_from_cid_after_request t cmd_id none arg h]
    rfl
  rw [sif0_dma_handler_drop _ p (Or.inr (Or.inr hreg))]

theorem sif_request_cmd_null_cb_unregisters_witness :
    (sif_request_cmd (CmdTables.empty Nat Nat 0) 5 (none : Option Nat) 0).1 = .ok () ∧
    (sif0_dma_handler (sif_request_cmd (CmdTables.empty Nat Nat 0) 5 (none : Option Nat) 0).2
      ⟨⟨16, 0, 0, 5, 0⟩, []⟩).1 = none :=
  ⟨(sif_request_cmd_null_cb_unregisters (CmdTables.empty Nat Nat 0) 5 0 (by decide)).1,
   (sif_request_cmd_null_cb_unregisters (CmdTables.empty Nat Nat 0) 5 0 (by decide)).2
     ⟨⟨16, 0, 0, 5, 0⟩, []⟩ rfl⟩

lemma sif1_wait_allbusy (polls : Nat → Bool) (hb : ∀ i, polls i = true) :
    ∀ n i, sif1_wait polls i n = 0 := by
  intro n
  induction n with
  | zero => intro i; rfl
  | succ k ih => intro i; simp [sif1_wait, hb i, ih]

lemma sif1_ready_allbusy (polls : Nat → Bool) (hb : ∀ i, polls i = true) :
    sif1_ready polls = false := by
  simp [sif1_ready, sif1_wait_allbusy polls hb]

/-- Case analysis on the outcomes of `sif1_write_ert_int_0`. -/
lemma sif1_write_ert_int_0_result (polls : Nat → Bool) (header : Option SifCmdHeader)
    (ert int_0 : Bool) (dst : Nat) (src : List Nat) :
    sif1_write_ert_int_0 polls header ert int_0 dst src = .error .einval ∨
    sif1_write_ert_int_0 polls header ert int_0 dst src = .error .ebusy ∨
    (sif1_write_ert_int_0 polls header ert int_0 dst src = .ok none ∧
      align16 ((if header.isSome then SIF_CMD_HEADER_SIZE else 0) + src.length) = 0) ∨
    (sif1_write_ert_int_0 polls header ert int_0 dst src =
        .ok (some ⟨ert, int_0, dst, header, src⟩) ∧
      sif1_ready polls = true) := by
  simp only [sif1_write_ert_int_0]
  generalize (if header.isSome = true then SIF_CMD_HEADER_SIZE else 0) = hs
  by_cases h1 : align16 (hs + src.length) = 0
  · rw [if_pos h1]
    exact Or.inr (Or.inr (Or.inl ⟨rfl, h1⟩))
  · rw [if_neg h1]
    by_cases h2 : IOP_DMA_TAG_SIZE + align16 (hs + src.length) > SIF1_BUFFER_SIZE
    · rw [if_pos h2]
      exact Or.inl rfl
    · rw [if_neg h2]
      by_cases h3 : sif1_ready polls = true
      · rw [if_neg (by simp [h3])]
        exact Or.inr (Or.inr (Or.inr ⟨rfl, h3⟩))
      · rw [if_pos h3]
        exact Or.inr (Or.inl rfl)

lemma sif1_write_ert_int_0_ok (polls : Nat → Bool) (header : Option SifCmdHeader)
    (ert int_0 : Bool) (dst : Nat) (src : List Nat)
    (hready : sif1_ready polls = true)
    (hnz : align16 ((if header.isSome then SIF_CMD_HEADER_SIZE else 0) + src.length) ≠ 0)
    (hfit : IOP_DMA_TAG_SIZE + align16 ((if header.isSome then SIF_CMD_HEADER_SIZE else 0)
        + src.length) ≤ SIF1_BUFFER_SIZE) :
    sif1_write_ert_int_0 polls header ert int_0 dst src =
      .ok (some ⟨ert, int_0, dst, header, src⟩) := by
  simp only [sif1_write_ert_int_0]
  generalize hgen : (if header.isSome = true then SIF_CMD_HEADER_SIZE else 0) = hs
  rw [hgen] at hnz hfit
  rw [if_neg hnz, if_neg (by omega), if_neg (by simp [hready])]

lemma sif1_write_ert_int_0_busy (polls : Nat → Bool) (header : Option SifCmdHeader)
    (ert int_0 : Bool) (dst : Nat) (src : List Nat)
    (hnready : sif1_ready polls = false)
    (hnz : align16 ((if header.isSome then SIF_CMD_HEADER_SIZE else 0) + src.length) ≠ 0)
    (hfit : IOP_DMA_TAG_SIZE + align16 ((if header.isSome then SIF_CMD_HEADER_SIZE else 0)
        + src.length) ≤ SIF1_BUFFER_SIZE) :
    sif1_write_ert_int_0 polls header ert int_0 dst src = .error .ebusy := by
  simp only [sif1_write_ert_int_0]
  generalize hgen : (if header.isSome = true then SIF_CMD_HEADER_SIZE else 0) = hs
  rw [hgen] at hnz hfit
  rw [if_neg hnz, if_neg (by omega), if_pos (by simp [hnready])]

/-- C7: when the outbound SIF1 channel stays busy through the whole bounded
wait (50000 polls of the busy bit, one `udelay(100)` apart, ≈5 s), a send
fails fast with `-EBUSY` and no new transfer is programmed; conversely a
transfer is only ever started on a poll sequence on which the bounded wait
observed the channel idle, so at most one outbound transfer is in flight. -/
theorem sif_send_busy_channel_fails_ebusy (polls : Nat → Bool)
    (header : Option SifCmdHeader) (ert int_0 : Bool) (dst : Nat) (src : List Nat)
    (hbusy : ∀ i, polls i = true)
    (hnz : align16 ((if header.isSome then SIF_CMD_HEADER_SIZE else 0) + src.length) ≠ 0)
    (hfit : IOP_DMA_TAG_SIZE + align16 ((if header.isSome then SIF_CMD_HEADER_SIZE else 0)
        + src.length) ≤ SIF1_BUFFER_SIZE) :
    sif1_ready polls = false ∧
    sif1_write_ert_int_0 polls header ert int_0 dst src = .error .ebusy ∧
    ∀ (polls2 : Nat → Bool) (tr : Sif1Transfer),
      sif1_write_ert_int_0 polls2 header ert int_0 dst src = .ok (some tr) →
      sif1_ready polls2 = true := by
  have hnready := sif1_ready_allbusy polls hbusy
  refine ⟨hnready, sif1_write_ert_int_0_busy polls header ert int_0 dst src hnready hnz hfit, ?_⟩
  intro polls2 tr h
  rcases sif1_write_ert_int_0_result polls2 header ert int_0 dst src with h' | h' | ⟨h', _⟩ | ⟨_, h'⟩
  · rw [h'] at h; exact absurd h (by simp)
  · rw [h'] at h; exact absurd h (by simp)
  · rw [h'] at h; exact absurd h (by simp)
  · exact h'

theorem sif_send_busy_channel_fails_ebusy_witness :
    sif1_ready (fun _ => true) = false ∧
    sif1_write_ert_int_0 (fun _ => true) (some ⟨32, 0, 0, 5, 0⟩) true true 0 [] =
      .error .ebusy ∧
    ∀ (polls2 : Nat → Bool) (tr : Sif1Transfer),
      sif1_write_ert_int_0 polls2 (some ⟨32, 0, 0, 5, 0⟩) true true 0 [] = .ok (some tr) →
      sif1_ready polls2 = true :=
  sif_send_busy_channel_fails_ebusy (fun _ => true) (some ⟨32, 0, 0, 5, 0⟩) true true 0 []
    (fun _ => rfl) (by decide) (by decide)

/-- C6: a send with both a bulk payload (to its destination address) and a
header-carrying inline packet issues the transfers in order: the bulk
payload first (no header, no interrupt-on-completion), the header+inline
transfer second (with interrupt-on-completion), and the header transfer is
issued only when the bulk transfer was issued successfully — the transfer
log is always a prefix of [bulk, header]. -/
theorem sif_send_bulk_payload_precedes_header (polls1 polls2 : Nat → Bool)
    (iop_buffer cmd_id opt dst : Nat) (pkt src : List Nat) (hsrc : src ≠ []) :
    (sif_cmd_opt_copy polls1 polls2 iop_buffer cmd_id opt pkt dst src).2 = [] ∨
    (sif_cmd_opt_copy polls1 polls2 iop_buffer cmd_id opt pkt dst src).2 =
      [⟨false, false, dst, none, src⟩] ∨
    ((sif_cmd_opt_copy polls1 polls2 iop_buffer cmd_id opt pkt dst src).2 =
        [⟨false, false, dst, none, src⟩,
         ⟨true, true, iop_buffer,
           some (mkSifCmdHeader (SIF_CMD_HEADER_SIZE + pkt.length) src.length dst cmd_id opt),
           pkt⟩] ∧
      (sif_cmd_opt_copy polls1 polls2 iop_buffer cmd_id opt pkt dst src).1 = .ok ()) := by
  simp only [sif_cmd_opt_copy, sif1_write, sif1_write_irq]
  by_cases hp : pkt.length > SIF_CMD_PACKET_DATA_MAX
  · rw [if_pos hp]
    exact Or.inl rfl
  · rw [if_neg hp]
    rcases sif1_write_ert_int_0_result polls1 none false false dst src
      with h1 | h1 | ⟨h1, ha⟩ | ⟨h1, _⟩
    · rw [h1]; exact Or.inl rfl
    · rw [h1]; exact Or.inl rfl
    · exfalso
      simp only [Option.isSome_none, Bool.false_eq_true, if_false] at ha
      have : src.length = 0 := by unfold align16 at ha; omega
      exact hsrc (List.length_eq_zero.mp this)
    · rw [h1]
      rcases sif1_write_ert_int_0_result polls2
          (some (mkSifCmdHeader (SIF_CMD_HEADER_SIZE + pkt.length) src.length dst cmd_id opt))
          true true iop_buffer pkt with h2 | h2 | ⟨h2, ha⟩ | ⟨h2, _⟩
      · rw [h2]; exact Or.inr (Or.inl rfl)
      · rw [h2]; exact Or.inr (Or.inl rfl)
      · exfalso
        simp only [Option.isSome_some, if_true] at ha
        unfold align16 SIF_CMD_HEADER_SIZE at ha
        omega
      · rw [h2]
        exact Or.inr (Or.inr ⟨rfl, rfl⟩)

theorem sif_send_bulk_payload_precedes_header_witness :
    (sif_cmd_opt_copy (fun _ => false) (fun _ => false) 0xbb000 5 7 [1, 2, 3] 0x9000 [9]).2
      = [] ∨
    (sif_cmd_opt_copy (fun _ => false) (fun _ => false) 0xbb000 5 7 [1, 2, 3] 0x9000 [9]).2
      = [⟨false, false, 0x9000, none, [9]⟩] ∨
    ((sif_cmd_opt_copy (fun _ => false) (fun _ => false) 0xbb000 5 7 [1, 2, 3] 0x9000 [9]).2
        = [⟨false, false, 0x9000, none, [9]⟩,
           ⟨true, true, 0xbb000, some (mkSifCmdHeader (SIF_CMD_HEADER_SIZE + 3) 1 0x9000 5 7),
             [1, 2, 3]⟩] ∧
      (sif_cmd_opt_copy (fun _ => false) (fun _ => false) 0xbb000 5 7 [1, 2, 3] 0x9000 [9]).1
        = .ok ()) := by
  have := sif_send_bulk_payload_precedes_header (fun _ => false) (fun _ => false)
    0xbb000 5 7 0x9000 [1, 2, 3] [9] (by decide)
  simpa using this

/-- C1: sending a valid `(command_id, option, inline packet)` triple with
inline size at most 96 bytes produces a single header+inline transfer whose
header carries `packet_size = 16 +` inline size, `data_size = 0`,
`data_addr = 0`, `cmd = command_id`, `opt = option`; dispatching that
packet through the inbound path invokes exactly the handler registered for
`command_id` with that header and with payload bytes whose inline portion
is byte-identical to the packet given to send. -/
theorem sif_send_loopback_invokes_registered_handler {CB A : Type}
    (t : CmdTables CB A) (cb : CB) (arg : A) (polls1 polls2 : Nat → Bool)
    (iop_buffer cmd_id opt : Nat) (pkt pad : List Nat)
    (hreg : handler_from_cid t cmd_id = some ⟨some cb, arg⟩)
    (hcmd : cmd_id < 2^32) (hopt : opt < 2^32)
    (hpkt : pkt.length ≤ SIF_CMD_PACKET_DATA_MAX)
    (hready : sif1_ready polls2 = true) :
    sif_cmd_opt polls1 polls2 iop_buffer cmd_id opt pkt =
      (.ok (), [⟨true, true, iop_buffer,
        some ⟨SIF_CMD_HEADER_SIZE + pkt.length, 0, 0, cmd_id, opt⟩, pkt⟩]) ∧
    sif0_dma_handler t ⟨⟨SIF_CMD_HEADER_SIZE + pkt.length, 0, 0, cmd_id, opt⟩, pkt ++ pad⟩ =
      (some (cb, arg), true) ∧
    (pkt ++ pad).take pkt.length = pkt := by
  unfold SIF_CMD_PACKET_DATA_MAX at hpkt
  have hh : mkSifCmdHeader (SIF_CMD_HEADER_SIZE + pkt.length) (List.length ([] : List Nat))
      0 cmd_id opt = ⟨SIF_CMD_HEADER_SIZE + pkt.length, 0, 0, cmd_id, opt⟩ := by
    unfold mkSifCmdHeader SIF_CMD_HEADER_SIZE
    simp only [List.length_nil, SifCmdHeader.mk.injEq]
    refine ⟨Nat.mod_eq_of_lt (by omega), rfl, rfl,
      Nat.mod_eq_of_lt (by omega), Nat.mod_eq_of_lt (by omega)⟩
  refine ⟨?_, ?_, List.take_left pkt pad⟩
  · simp only [sif_cmd_opt, sif_cmd_opt_copy, sif1_write, sif1_write_irq]
    rw [if_neg (by unfold SIF_CMD_PACKET_DATA_MAX; omega)]
    have hbulk : sif1_write_ert_int_0 polls1 none false false 0 ([] : List Nat) = .ok none := rfl
    rw [hbulk]
    rw [sif1_write_ert_int_0_ok polls2 _ true true iop_buffer pkt hready
      (by simp only [Option.isSome_some, if_true]
          have := align16_ge (SIF_CMD_HEADER_SIZE + pkt.length)
          unfold SIF_CMD_HEADER_SIZE at *; omega)
      (by simp only [Option.isSome_some, if_true]
          have := align16_le_add (SIF_CMD_HEADER_SIZE + pkt.length)
          unfold SIF_CMD_HEADER_SIZE IOP_DMA_TAG_SIZE SIF1_BUFFER_SIZE PAGE_SIZE at *; omega)]
    rw [hh]
    rfl
  · unfold sif0_dma_handler
    rw [if_neg (by unfold SIF_CMD_HEADER_SIZE SIF_CMD_PACKET_MAX; simp; omega)]
    unfold cmd_call_handler
    simp only []
    rw [hreg]

theorem sif_send_loopback_invokes_registered_handler_witness :
    sif_cmd_opt (fun _ => false) (fun _ => false) 0xbb000 5 7 [1, 2, 3] =
      (.ok (), [⟨true, true, 0xbb000, some ⟨SIF_CMD_HEADER_SIZE + 3, 0, 0, 5, 7⟩, [1, 2, 3]⟩]) ∧
    sif0_dma_handler (sif_request_cmd (CmdTables.empty Nat Nat 0) 5 (some 42) 9).2
      ⟨⟨SIF_CMD_HEADER_SIZE + 3, 0, 0, 5, 7⟩, [1, 2, 3] ++ [0, 0, 0, 0]⟩ =
      (some (42, 9), true) ∧
    ([1, 2, 3] ++ [0, 0, 0, 0]).take 3 = [1, 2, 3] := by
  have := sif_send_loopback_invokes_registered_handler
    (sif_request_cmd (CmdTables.empty Nat Nat 0) 5 (some 42) 9).2 42 9
    (fun _ => false) (fun _ => false) 0xbb000 5 7 [1, 2, 3] [0, 0, 0, 0]
    (by decide) (by decide) (by decide) (by decide) (by decide)
  simpa using this

/-- C2 (counterexample): packet contents can reach a fatal kernel assertion
through the inbound dispatch path. A well-formed packet (size 24, within
[16, 112]) carrying the registered system command `SIF_CMD_WRITE_SREG`
whose payload asks for register index 32 reaches
`BUG_ON(packet->reg >= ARRAY_SIZE(sregs))` in `cmd_write_sreg`: the
dispatch outcome is `fatal`, not a drop. -/
theorem sif_dispatch_write_sreg_reaches_bug :
    (sif0_dispatch_sys ⟨fun _ => 0⟩
      ⟨⟨24, 0, 0, SIF_CMD_WRITE_SREG, 0⟩, [32, 0, 0, 0, 0, 0, 0, 0]⟩).1 = .fatal ∧
    SIF_CMD_HEADER_SIZE ≤ 24 ∧ 24 ≤ SIF_CMD_PACKET_MAX ∧
    cmd_registered boot_tables SIF_CMD_WRITE_SREG = true :=
  ⟨rfl, by decide, by decide, by decide⟩

/-- C2 (amended): an inbound packet whose `packet_size` lies outside
[16, 112], or whose command id has no registered handler, is dropped by the
dispatch path — no handler runs, nothing fatal happens, and the channel is
re-armed. (Packets reaching registered system handlers can still hit
`BUG_ON`/`BUG` assertions on bad contents, as the counterexample shows.) -/
theorem sif_dispatch_invalid_dropped_not_fatal (s : SifState) (p : InPacket)
    (h : p.header.packet_size < SIF_CMD_HEADER_SIZE ∨
      SIF_CMD_PACKET_MAX < p.header.packet_size ∨
      cmd_registered boot_tables p.header.cmd = false) :
    sif0_dispatch_sys s p = (.dropped, true) := by
  unfold sif0_dispatch_sys
  rw [sif0_dma_handler_drop boot_tables p h]

theorem sif_dispatch_invalid_dropped_not_fatal_witness :
    sif0_dispatch_sys ⟨fun _ => 0⟩ ⟨⟨24, 0, 0, 0x80000030, 0⟩, []⟩ = (.dropped, true) :=
  sif_dispatch_invalid_dropped_not_fatal ⟨fun _ => 0⟩ ⟨⟨24, 0, 0, 0x80000030, 0⟩, []⟩
    (Or.inr (Or.inr (by decide)))

/-- C4: with the buffer allocation succeeding and the outbound channel
ready, `sif_rpc_bind` returns success exactly when the satellite's
`rpc-end` reply recorded a nonzero server address into the client (the
reply's `server` and `server_buffer` are copied into the client and the
completion is signalled); a zero server address fails with `-ENXIO`
(no such service). -/
theorem sif_rpc_bind_success_iff_nonzero_server (polls1 polls2 : Nat → Bool)
    (iop_buffer client_ptr server_id resp_server resp_server_buffer : Nat)
    (hready : sif1_ready polls2 = true) :
    (resp_server ≠ 0 →
      sif_rpc_bind true polls1 polls2 iop_buffer client_ptr server_id
          resp_server resp_server_buffer =
        .ok ⟨resp_server, resp_server_buffer, SIF0_BUFFER_SIZE, true⟩) ∧
    (resp_server = 0 →
      sif_rpc_bind true polls1 polls2 iop_buffer client_ptr server_id
          resp_server resp_server_buffer = .error .enxio) := by
  have hsend : (sif_cmd polls1 polls2 iop_buffer SIF_CMD_RPC_BIND
      (sif_rpc_bind_packet client_ptr server_id)).1 = .ok () := by
    simp only [sif_cmd, sif_cmd_copy, sif_cmd_opt_copy, sif1_write, sif1_write_irq]
    rw [if_neg (by simp [sif_rpc_bind_packet, u32le, SIF_CMD_PACKET_DATA_MAX])]
    have hbulk : sif1_write_ert_int_0 polls1 none false false 0 ([] : List Nat) = .ok none := rfl
    rw [hbulk]
    rw [sif1_write_ert_int_0_ok polls2 _ true true iop_buffer _ hready
      (by simp [sif_rpc_bind_packet, u32le, align16, SIF_CMD_HEADER_SIZE])
      (by simp [sif_rpc_bind_packet, u32le, align16, SIF_CMD_HEADER_SIZE, IOP_DMA_TAG_SIZE,
            SIF1_BUFFER_SIZE, PAGE_SIZE])]
  have hrpc : cmd_rpc_end_client
      ⟨0, 0, SIF0_BUFFER_SIZE, false⟩ SIF_CMD_RPC_BIND resp_server resp_server_buffer =
      some ⟨resp_server, resp_server_buffer, SIF0_BUFFER_SIZE, true⟩ := by
    unfold cmd_rpc_end_client
    rw [if_neg (by decide), if_pos rfl]
  constructor
  · intro hs
    unfold sif_rpc_bind
    rw [if_neg (by simp)]
    rw [hsend, hrpc]
    simp only []
    rw [if_pos hs]
  · intro hs
    unfold sif_rpc_bind
    rw [if_neg (by simp)]
    rw [hsend, hrpc]
    simp only []
    rw [if_neg (by simpa using hs)]

theorem sif_rpc_bind_success_iff_nonzero_server_witness :
    sif_rpc_bind true (fun _ => false) (fun _ => false) 0xbb000 0 3 0x1000 0x2000 =
      .ok ⟨0x1000, 0x2000, SIF0_BUFFER_SIZE, true⟩ ∧
    (0x1000 : Nat) ≠ 0 :=
  ⟨(sif_rpc_bind_success_iff_nonzero_server (fun _ => false) (fun _ => false)
      0xbb000 0 3 0x1000 0x2000 (by decide)).1 (by decide), by decide⟩

/-- If the condition is false at every check within the budget, the bounded
poll gives up: only the first `n` polls can matter. -/
lemma completed_within_false (n : Nat) :
    ∀ cond : Nat → Bool, (∀ i, i < n → cond i = false) → completed_within cond n = false := by
  induction n with
  | zero => intro cond _; rfl
  | succ k ih =>
    intro cond h
    unfold completed_within
    rw [h 0 (by omega)]
    simpa using ih (fun i => cond (i + 1)) (fun i hi => h (i + 1) (by omega))

/-- C9 (counterexample): when the satellite never raises the CMDINIT
("command layer initialized") mailbox flag, `sif_init` terminates with
`-EIO` — not `-ETIMEDOUT` ("Timeout") — while releasing both DMA buffers. -/
theorem sif_init_flag_never_set_returns_eio_not_timeout :
    sif_init
      { alloc_sif0 := true, alloc_sif1 := true, cmdinit1 := fun _ => false,
        subaddr1 := 0, mainaddr := 0, reset_polls1 := fun _ => false,
        reset_polls2 := fun _ => false, bootend := fun _ => true,
        cmdinit2 := fun _ => true, subaddr2 := 0, request_irq_result := .ok (),
        initcmd_polls1 := fun _ => false, initcmd_polls2 := fun _ => false,
        rpc_polls1 := fun _ => false, rpc_polls2 := fun _ => false,
        rpcinit := fun _ => true } = (.error .eio, Resources.none) ∧
    KErr.eio ≠ KErr.etimedout := by
  have hc : completed (fun _ => false) = false :=
    completed_within_false COMPLETED_POLL_BUDGET (fun _ => false) (fun _ _ => rfl)
  constructor
  · unfold sif_init
    rw [if_neg (by simp)]
    rw [if_pos (by simpa using hc)]
  · decide

/-- C9 (amended): if the satellite does not raise the CMDINIT mailbox flag
within the poll budget of the bounded wait (5000 checks ≈ 5 s) — even if
it would be raised later — `sif_init` fails with `-EIO` and releases both
DMA buffers (and holds no interrupt line) before returning. -/
theorem sif_init_flag_timeout_fails_eio_releases_buffers (env : BootEnv)
    (h0 : env.alloc_sif0 = true) (h1 : env.alloc_sif1 = true)
    (h : ∀ i, i < COMPLETED_POLL_BUDGET → env.cmdinit1 i = false) :
    sif_init env = (.error .eio, Resources.none) := by
  have hc : completed env.cmdinit1 = false :=
    completed_within_false COMPLETED_POLL_BUDGET env.cmdinit1 h
  unfold sif_init
  rw [if_neg (by simp [h0, h1])]
  rw [if_pos (by simpa using hc)]

theorem sif_init_flag_timeout_fails_eio_releases_buffers_witness :
    sif_init
      { alloc_sif0 := true, alloc_sif1 := true,
        cmdinit1 := fun i => decide (COMPLETED_POLL_BUDGET ≤ i),
        subaddr1 := 0, mainaddr := 0, reset_polls1 := fun _ => false,
        reset_polls2 := fun _ => false, bootend := fun _ => true,
        cmdinit2 := fun _ => true, subaddr2 := 0, request_irq_result := .ok (),
        initcmd_polls1 := fun _ => false, initcmd_polls2 := fun _ => false,
        rpc_polls1 := fun _ => false, rpc_polls2 := fun _ => false,
        rpcinit := fun _ => true } = (.error .eio, Resources.none) :=
  sif_init_flag_timeout_fails_eio_releases_buffers _ rfl rfl
    (fun i hi => by simp; omega)
